import Mathlib

/-!
A shallow embedding of `src/musterbot.py` (SignalMusterBot), covering the
check-in correlation engine, the status resolver, the calendar policy, and
the cron scheduling layer, together with theorems about their behavior.

Conventions of the embedding:
* Calendar dates are day ordinals (`Nat`); the epoch day `0` is a Monday, so
  `d % 7` is Python's `date.weekday()` (`0` = Monday, ..., `6` = Sunday).
  ISO `YYYY-MM-DD` strings are in an order-preserving bijection with day
  ordinals, so the string comparisons and `date.fromisoformat` round trips
  of the Python code become plain `Nat` equality and order.
* The SQLite tables become lists of row structures inside a `DB` record;
  `INSERT` appends a row.  The `responses` table is keyed by an integer
  rowid only (no unique constraint on `(user_id, response_date)`), so both
  `INSERT` and `INSERT OR REPLACE` append.
* The module-level Python dicts `daily_message_ts` and `update_status_ts`
  become finite-map components (`Nat → Option Date`,
  `String → Option PendingInfo`) of a `BotState` record.
* Outbound transport calls (`signal.send_message`, Slack post) are recorded
  as a list of `Outbound` events returned by each handler; the transport's
  delivery-acknowledgment timestamp used for correlation is passed in as an
  explicit argument (`ackTs`).
-/

namespace MusterBot

/-- Calendar dates as day ordinals; epoch day 0 is a Monday. -/
abbrev Date := Nat

/-- Python `date.weekday()`: 0 = Monday, ..., 5 = Saturday, 6 = Sunday. -/
def weekday (d : Date) : Nat := d % 7

/-- Decimal digits of a natural number, with structural fuel so that the
kernel can evaluate it (`toString` on `Nat` uses well-founded recursion,
which closed-term evaluation cannot unfold). -/
def natStrAux : Nat → Nat → List Char
  | 0, _ => []
  | fuel + 1, n =>
    if n < 10 then [Char.ofNat (48 + n)]
    else natStrAux fuel (n / 10) ++ [Char.ofNat (48 + n % 10)]

/-- Decimal rendering of a natural number (Python `str(n)` / f-string). -/
def natStr (n : Nat) : String := ⟨natStrAux (n + 1) n⟩

/-- One entry of `STATUS_MAP`: the display text, the optional follow-up
detail prompt, and the search hint. -/
structure StatusInfo where
  text : String
  prompt : Option String
  hint : String
deriving Repr, DecidableEq

/-- The fixed emoji → status registry `STATUS_MAP` of `musterbot.py`
(insertion-ordered, exactly as in the source; the key strings reproduce the
source file's literal characters). -/
def STATUS_MAP : List (String × StatusInfo) := [
  ("\u00E2\u0153\u2026", ⟨"In at Normal Time", none, "checkmark"⟩),
  ("\u00E2\u00B1\u00EF\u00B8", ⟨"In Late", some "What time do you expect to be in?", "stopwatch"⟩),
  ("\u00F0\u0178\u00A0", ⟨"Working from Home", none, "house"⟩),
  ("\u00F0\u0178\u2014\u201C\u00EF\u00B8", ⟨"Appointment", some "What time do you expect to be in?", "calendar"⟩),
  ("\u00F0\u0178\u00A4\u2019", ⟨"Out Sick", none, "thermometer"⟩),
  ("\u00F0\u0178\u0152\u00B4", ⟨"Liberty", none, "palm tree"⟩),
  ("\u00E2\u201C", ⟨"Other", some "Please provide your status for the day.", "question mark"⟩)]

/-- `STATUS_MAP.get(emoji)`: exact-match lookup in the registry. -/
def statusMapGet (emoji : String) : Option StatusInfo :=
  (STATUS_MAP.find? (fun p => p.1 = emoji)).map (·.2)

/-- A row of the `responses` table. -/
structure ResponseRow where
  user_id : String
  user_name : String
  response_date : Date
  response_text : String
  details : Option String
deriving Repr, DecidableEq

/-- A row of the `messages` log table. -/
structure MessageRow where
  sender_id : String
  sender_name : String
  destination_id : String
  sent_timestamp : Nat
  message : String
deriving Repr, DecidableEq

/-- A row of the `leave` table (inclusive date range). -/
structure LeaveRow where
  user_id : String
  user_name : String
  start_date : Date
  end_date : Date
deriving Repr, DecidableEq

/-- A row of the `tdy` table (inclusive date range with a description). -/
structure TdyRow where
  user_id : String
  start_date : Date
  end_date : Date
  description : String
deriving Repr, DecidableEq

/-- The persistent store: the SQLite tables of `setup_database`, with rows
in insertion (rowid) order. -/
structure DB where
  responses : List ResponseRow
  messages : List MessageRow
  leaveRows : List LeaveRow
  tdy : List TdyRow
  holidays : List (Date × String)
  config : List (String × String)
deriving Repr, DecidableEq

/-- `SELECT value FROM config WHERE key = ?` (first match; the table has a
primary key so at most one row matches). -/
def configGet (db : DB) (k : String) : Option String :=
  (db.config.find? (fun p => p.1 = k)).map (·.2)

/-- `is_workday`: false on Saturday/Sunday and on any date present in the
`holidays` table. -/
def is_workday (db : DB) (check_date : Date) : Bool :=
  if weekday check_date ≥ 5 then false
  else !(db.holidays.any (fun h => h.1 = check_date))

/-- `is_user_on_leave`: some `leave` row of the user covers the date
(inclusive on both ends). -/
def is_user_on_leave (db : DB) (user_id : String) (check_date : Date) : Bool :=
  (db.leaveRows.filter (fun r => r.user_id = user_id)).any
    (fun r => r.start_date ≤ check_date && check_date ≤ r.end_date)

/-- `get_user_tdy_status`: the description of the first `tdy` row of the
user covering the date, else `none`. -/
def get_user_tdy_status (db : DB) (user_id : String) (check_date : Date) : Option String :=
  ((db.tdy.filter (fun r => r.user_id = user_id)).find?
      (fun r => r.start_date ≤ check_date && check_date ≤ r.end_date)).map (·.description)

/-- The dict comprehension of `post_daily_summary_callback`
(`{row[0]: (row[1], row[2]) for row in ...}`): among today's response rows,
the LAST row for a user wins. -/
def responsesDict (rows : List ResponseRow) (d : Date) (user_id : String) :
    Option (String × Option String) :=
  (rows.filter (fun r => r.response_date = d)).foldl
    (fun acc r => if r.user_id = user_id then some (r.response_text, r.details) else acc)
    none

/-- The effective status computed per user in the summary loop of
`post_daily_summary_callback` (lines 209-220), as structured data:
which branch of the `if`/`elif` chain produced the status line, with its
payload. -/
inductive EffectiveStatus where
  | tdy (description : String)
  | onLeave
  | response (text : String) (details : Option String)
  | notCheckedIn
deriving Repr, DecidableEq

/-- The per-user resolution of `post_daily_summary_callback`: TDY first,
then leave, then an explicit response (read through the dict), else not
checked in. -/
def status_line (db : DB) (today : Date) (user_id : String) : EffectiveStatus :=
  match get_user_tdy_status db user_id today with
  | some desc => .tdy desc
  | none =>
    if is_user_on_leave db user_id today then .onLeave
    else match responsesDict db.responses today user_id with
      | some (t, det) => .response t det
      | none => .notCheckedIn

/-- A pending follow-up as stored in `update_status_ts` by `react_callback`:
the delivery timestamp of the outbound detail prompt, the chosen status, and
the check-in date awaiting details. -/
structure PendingInfo where
  timestamp : Nat
  status : String
  response_date : Date
deriving Repr, DecidableEq

/-- The mutable in-process state: the `daily_message_ts` prompt map, the
`update_status_ts` pending follow-up map, and the database. -/
structure BotState where
  daily_message_ts : Nat → Option Date
  update_status_ts : String → Option PendingInfo
  db : DB

/-- An outbound transport effect performed by a handler. -/
inductive Outbound where
  | dm (recipient : String) (text : String)
  | group (chatId : String) (text : String)
  | slack (channel : String) (text : String)
deriving Repr, DecidableEq

/-- A reaction payload of an inbound `DataMessage`. -/
structure Reaction where
  emoji : String
  isRemove : Bool
  targetSentTimestamp : Nat
deriving Repr, DecidableEq

/-- An inbound `DataMessage` as consumed by the handlers.  `quote` is the
reply-reference of the transport event; the code never reads it. -/
structure DataMsg where
  sender : String
  sender_uuid : String
  sender_name : String
  timestamp : Nat
  reaction : Option Reaction
  message : Option String
  quote : Option Nat
deriving Repr, DecidableEq

/-- The explanatory DM of `react_callback` for an unrecognized emoji. -/
def unknownEmojiText (emoji : String) : String :=
  "I don\x27t understand the \x27" ++ emoji ++
    "\x27 emoji. Please react with one of the emojis from the daily check-in message."

/-- The acknowledgment DM of `react_callback` after a direct (no-detail)
check-in. -/
def checkinAckText (status : String) (today_str : Date) : String :=
  "Thanks for checking in! I\x27ve marked you as \x27" ++ status ++ "\x27 for " ++
    natStr today_str ++ "."

/-- The confirmation DM of `update_status_callback`. -/
def updateAckText (status : String) (details : Option String) : String :=
  "Got it! Your status has been updated to \x27" ++ status ++
    "\x27 with the details: \x27" ++ (details.getD "None") ++ "\x27."

/-- `react_callback` (lines 570-611): route a reaction to a registered
check-in prompt.  The caller (`message_callback`) guarantees
`m.reaction = some r`; `ackTs` is the transport's delivery timestamp for the
outbound detail prompt, used as the follow-up correlation token. -/
def react_callback (st : BotState) (m : DataMsg) (r : Reaction) (ackTs : Nat) :
    BotState × List Outbound × Bool :=
  match st.daily_message_ts r.targetSentTimestamp with
  | none => (st, [], false)
  | some today_str =>
    match statusMapGet r.emoji with
    | none => (st, [.dm m.sender_uuid (unknownEmojiText r.emoji)], true)
    | some status_info =>
      let status := status_info.text
      match status_info.prompt with
      | some response_message =>
        ({ st with update_status_ts := fun u =>
            if u = m.sender_uuid then some ⟨ackTs, status, today_str⟩
            else st.update_status_ts u },
         [.dm m.sender response_message], true)
      | none =>
        ({ st with db := { st.db with responses := st.db.responses ++
            [⟨m.sender_uuid, m.sender_name, today_str, status, none⟩] } },
         [.dm m.sender_uuid (checkinAckText status today_str)], true)

/-- `update_status_callback` (lines 613-633): pop the sender's pending
follow-up and write the response with the message text as details (the
`INSERT OR REPLACE` hits no unique constraint, so it appends a row).  The
`none` branch is unreachable under the caller's membership guard (the
Python `pop` would raise there). -/
def update_status_callback (st : BotState) (m : DataMsg) :
    BotState × List Outbound × Bool :=
  match st.update_status_ts m.sender_uuid with
  | none => (st, [], true)
  | some info =>
    ({ st with
        update_status_ts := fun u => if u = m.sender_uuid then none else st.update_status_ts u,
        db := { st.db with responses := st.db.responses ++
          [⟨m.sender_uuid, m.sender_name, info.response_date, info.status, m.message⟩] } },
     [.dm m.sender_uuid (updateAckText info.status m.message)], true)

/-- `message_callback` (lines 542-568): route an inbound event.  In the main
group, only non-remove reactions to registered prompts reach
`react_callback`; outside the group, any message from a sender with a
pending follow-up reaches `update_status_callback`; finally every event
with non-empty text is logged to the `messages` table. -/
def message_callback (chatId : String) (st : BotState) (context1 : String)
    (m : DataMsg) (ackTs : Nat) : BotState × List Outbound × Bool :=
  let routed :=
    if context1 = chatId then
      match m.reaction with
      | some r =>
        if !r.isRemove && (st.daily_message_ts r.targetSentTimestamp).isSome then
          let (s, o, _) := react_callback st m r ackTs
          (s, o)
        else (st, ([] : List Outbound))
      | none => (st, [])
    else if (st.update_status_ts m.sender_uuid).isSome then
      let (s, o, _) := update_status_callback st m
      (s, o)
    else (st, [])
  let logged :=
    match m.message with
    | some txt =>
      if txt ≠ "" then
        { routed.1 with db := { routed.1.db with messages := routed.1.db.messages ++
            [⟨m.sender_uuid, m.sender_name, context1, m.timestamp, txt⟩] } }
      else routed.1
    | none => routed.1
  (logged, routed.2, true)

/-- The instructions block of the daily check-in message, joined from
`STATUS_MAP` in registry order. -/
def instructionsText : String :=
  String.intercalate "\n"
    (STATUS_MAP.map (fun p =>
      p.1 ++ " (search \x27" ++ p.2.hint ++ "\x27) - " ++ p.2.text))

/-- The daily check-in group message. -/
def checkinMessageText (today_str : Date) : String :=
  "\u00E2\u02DC\u20AC\u00EF\u00B8 Good morning! Please check in for " ++ natStr today_str ++
    " by reacting to this message. \n\n" ++ instructionsText

/-- `post_daily_checkin_callback` (lines 171-186): on a workday, post the
prompt to the group and register its delivery timestamp in
`daily_message_ts`; otherwise do nothing. -/
def post_daily_checkin_callback (chatId : String) (st : BotState) (today : Date)
    (ackTs : Nat) : BotState × List Outbound :=
  if !is_workday st.db today then (st, [])
  else
    ({ st with daily_message_ts := fun t =>
        if t = ackTs then some today else st.daily_message_ts t },
     [.group chatId (checkinMessageText today)])

/-- Rendering of a summary status line (the f-strings of lines 212-220). -/
def summaryLineText : EffectiveStatus → String
  | .tdy desc => "\u00E2\u0153\u02C6\u00EF\u00B8 *" ++ desc ++ "*"
  | .onLeave => "\u00F0\u0178\u0152\u00B4 On Leave"
  | .response t det => t ++ " " ++ (match det with | some s => "(" ++ s ++ ")" | none => "")
  | .notCheckedIn => "\u00E2\u0152 Not Checked In"

/-- `post_daily_summary_callback` (lines 188-228): on a workday, resolve
every group member (excluding the bot's own number) through the
TDY/leave/response precedence and post the summary to the group and to
Slack.  `members` is the `(uuid, number)` list from `get_group_info`,
`userName` the display-name resolution of `get_username_from_userid`. -/
def post_daily_summary_callback (chatId targetChannel musterbotId : String)
    (userName : String → String) (members : List (String × String))
    (st : BotState) (today : Date) : BotState × List Outbound :=
  if !is_workday st.db today then (st, [])
  else
    let all_users := (members.filter (fun p => p.2 ≠ musterbotId)).map (·.1)
    let summary_text := all_users.foldl
      (fun acc uid => acc ++ "\n\u00E2\u20AC\u00A2 " ++ userName uid ++ ": " ++
        summaryLineText (status_line st.db today uid))
      ("*Daily Status Summary for " ++ natStr today ++ "*\n")
    (st, [.group chatId summary_text, .slack targetChannel summary_text])

/-- The reminder DM text. -/
def reminderText : String :=
  "Just a friendly reminder to please check in for today. \u00E2\u02DC\u20AC\u00EF\u00B8"

/-- `SELECT user_id FROM responses WHERE response_date = ?`. -/
def responded_users (db : DB) (d : Date) : List String :=
  (db.responses.filter (fun r => r.response_date = d)).map (·.user_id)

/-- `post_reminder_callback` (lines 230-257): on a workday, DM a reminder to
every group member who has not responded today, is not on leave, and is not
the bot id; otherwise do nothing. -/
def post_reminder_callback (musterbotId : String) (st : BotState) (today : Date)
    (all_users : List String) : BotState × List Outbound :=
  if !is_workday st.db today then (st, [])
  else
    (st,
     (all_users.filter (fun uid =>
        !((responded_users st.db today).contains uid) &&
        !(is_user_on_leave st.db uid today) &&
        uid ≠ musterbotId)).map (fun uid => .dm uid reminderText))

/-! ### Scheduler (`generate_cron_callbacks` / `add_cron_while_running`)

Instants of the scheduler's reference clock (Python `datetime.now()`) are
minutes since an epoch falling on a Monday at 00:00, so
`(t / 1440) % 7` is the weekday (0 = Monday) and `t % 1440` the minute of
the day.  The external `cron_converter` library is modelled at its boundary
by `cronNextFire`: the next instant strictly after the reference matching
`minute hour * * 1-5`. -/

/-- The scheduler's reference clock: minutes since a Monday-00:00 epoch. -/
abbrev Instant := Nat

/-- The bound job of a trigger. -/
inductive JobKind where
  | checkin
  | reminder
  | summary
deriving Repr, DecidableEq

/-- One armed timer in `signal._crons`: its cron string, the absolute
instant it will fire at, and the callback it is bound to. -/
structure Trigger where
  cron_str : String
  next : Instant
  job : JobKind
deriving Repr, DecidableEq

/-- Boundary model of `Cron(f"m h * * 1-5").schedule(ref).next()`: the first
instant after `ref` whose minute-of-hour is `m`, hour-of-day is `h`, and
weekday is Monday..Friday.  (The candidate at `h:m` on each of the next 8
days always contains such an instant; the fallback default is unreachable
for `h < 24`.) -/
def cronNextFire (m h : Nat) (ref : Instant) : Instant :=
  (((List.range 8).map (fun k => (ref / 1440 + k) * 1440 + h * 60 + m)).filter
    (fun t => ref < t && (t / 1440) % 7 < 5)).headD ref

/-- Split a character list at a separator (Python `str.split(sep)`),
structurally recursive so that the kernel can evaluate it (core
`String.splitOn` uses well-founded recursion). -/
def splitOnChar (sep : Char) : List Char → List Char → List String
  | [], acc => [⟨acc.reverse⟩]
  | c :: cs, acc =>
    if c = sep then ⟨acc.reverse⟩ :: splitOnChar sep cs []
    else splitOnChar sep cs (c :: acc)

/-- Python `s.split(sep)` for a one-character separator. -/
def splitStr (s : String) (sep : Char) : List String :=
  splitOnChar sep s.data []

/-- Structurally recursive decimal parser (Python `int(s)` on digits). -/
def charsToNatAux : List Char → Nat → Option Nat
  | [], acc => some acc
  | c :: cs, acc =>
    if 48 ≤ c.toNat && c.toNat ≤ 57 then
      charsToNatAux cs (acc * 10 + (c.toNat - 48))
    else none

/-- Python `int(s)` (for non-negative decimal strings): `none` on empty or
non-digit input. -/
def strToNat (s : String) : Option Nat :=
  match s.data with
  | [] => none
  | cs => charsToNatAux cs 0

/-- `minute hour` of a cron string `"m h * * 1-5"`. -/
def parseCronMinuteHour (s : String) : Nat × Nat :=
  match splitStr s ' ' with
  | m :: h :: _ => ((strToNat m).getD 0, (strToNat h).getD 0)
  | _ => (0, 0)

/-- `add_cron_while_running` (lines 153-161): compute the next firing
instant of the cron string from the current reference instant and append
the armed timer to `signal._crons`. -/
def add_cron_while_running (ref : Instant) (crons : List Trigger)
    (cron_str : String) (job : JobKind) : List Trigger :=
  let mh := parseCronMinuteHour cron_str
  crons ++ [⟨cron_str, cronNextFire mh.1 mh.2 ref, job⟩]

/-- `local_hour, local_minute = map(int, local_time_str.split(":"))`. -/
def parseHM (s : String) : Nat × Nat :=
  match splitStr s ':' with
  | [h, m] => ((strToNat h).getD 0, (strToNat m).getD 0)
  | _ => (0, 0)

/-- The `cron_jobs` dict of `generate_cron_callbacks`: job name → configured
local time, with the seeded defaults, in insertion order. -/
def cron_jobs (db : DB) : List (String × String) :=
  [("checkin", (configGet db "checkin_time").getD "06:00"),
   ("reminder", (configGet db "reminder_time").getD "09:00"),
   ("summary", (configGet db "summary_time").getD "10:00")]

/-- `generate_cron_callbacks` (lines 669-698): stop every armed timer
(`signal.stop_crons()` empties `signal._crons`), then re-arm one
weekday-only trigger per job from the configured times, logging each.
Returns the new armed-timer list and the log lines.  The previously armed
timers (`crons`) are discarded wholesale. -/
def generate_cron_callbacks (db : DB) (ref : Instant) (crons : List Trigger) :
    List Trigger × List String :=
  let _ := crons   -- signal.stop_crons(): all previously armed timers are cancelled
  let cleared : List Trigger := []
  (cron_jobs db).foldl
    (fun acc jv =>
      let hm := parseHM jv.2
      let cron_string := natStr hm.2 ++ " " ++ natStr hm.1 ++ " * * 1-5"
      if jv.1 = "checkin" then
        (add_cron_while_running ref acc.1 cron_string .checkin,
         acc.2 ++ ["Scheduled daily check-in: " ++ cron_string])
      else if jv.1 = "reminder" then
        (add_cron_while_running ref acc.1 cron_string .reminder,
         acc.2 ++ ["Scheduled reminder: " ++ cron_string])
      else if jv.1 = "summary" then
        (add_cron_while_running ref acc.1 cron_string .summary,
         acc.2 ++ ["Scheduled summary: " ++ cron_string])
      else acc)
    (cleared, [])

/-! ### Concrete fixtures for witnesses and counterexamples -/

/-- An empty database. -/
def emptyDB : DB := ⟨[], [], [], [], [], []⟩

/-- C1 witness data: user `u1` has a TDY record, a leave record AND an
explicit response all covering day 2 (a Wednesday). -/
def wDB1 : DB :=
  { emptyDB with
    responses := [⟨"u1", "U One", 2, "In at Normal Time", none⟩],
    leaveRows := [⟨"u1", "U One", 1, 3⟩],
    tdy := [⟨"u1", 1, 3, "offsite training"⟩] }

/-- C2 counterexample state: one registered prompt (timestamp 100, day 4). -/
def cSt2 : BotState :=
  ⟨fun t => if t = 100 then some 4 else none, fun _ => none, emptyDB⟩

/-- C2 counterexample event: a check-mark reaction from alice. -/
def cMsg2 : DataMsg :=
  ⟨"alice", "alice", "Alice", 7, some ⟨"\u00E2\u0153\u2026", false, 100⟩, none, none⟩

/-- The reaction payload of `cMsg2`. -/
def cReact2 : Reaction := ⟨"\u00E2\u0153\u2026", false, 100⟩

/-- C2 witness state: a registered prompt (timestamp 50, day 9), and an
already-present earlier response row for bob on day 9. -/
def wSt2 : BotState :=
  ⟨fun t => if t = 50 then some 9 else none, fun _ => none,
   { emptyDB with responses := [⟨"bob", "Bob", 9, "Out Sick", none⟩] }⟩

/-- C2 witness event: bob reacts with the house (work-from-home) emoji. -/
def wMsg2 : DataMsg :=
  ⟨"bob", "bob", "Bob", 1, some ⟨"ðŸ ", false, 50⟩, none, none⟩

/-- C3 witness state: one registered prompt (timestamp 70, day 11). -/
def wSt3 : BotState :=
  ⟨fun t => if t = 70 then some 11 else none, fun _ => none, emptyDB⟩

/-- C3 witness: first detail-required reaction (stopwatch = In Late). -/
def wM3a : DataMsg :=
  ⟨"dana", "dana", "Dana", 1, some ⟨"\u00E2\u00B1\u00EF\u00B8", false, 70⟩, none, none⟩

/-- C3 witness: second detail-required reaction (calendar = Appointment). -/
def wM3b : DataMsg :=
  ⟨"dana", "dana", "Dana", 2,
   some ⟨"\u00F0\u0178\u2014\u201C\u00EF\u00B8", false, 70⟩, none, none⟩

/-- C3 witness: dana's follow-up reply. -/
def wM3c : DataMsg := ⟨"dana", "dana", "Dana", 3, none, some "0930 dentist", none⟩

/-- C4 counterexample state: alice has a pending follow-up (token 500,
status In Late, day 4); no prompts registered. -/
def cSt4 : BotState :=
  ⟨fun _ => none, fun u => if u = "alice" then some ⟨500, "In Late", 4⟩ else none, emptyDB⟩

/-- C4 counterexample event: a DM from alice with no reply-reference
(`quote = none`) whose text is unrelated to the follow-up. -/
def cMsg4 : DataMsg :=
  ⟨"alice", "alice", "Alice", 9, none, some "totally unrelated chatter", none⟩

/-- C4 witness state: frank has a pending follow-up (token 321, Other, day 15). -/
def wSt4 : BotState :=
  ⟨fun _ => none, fun u => if u = "frank" then some ⟨321, "Other", 15⟩ else none, emptyDB⟩

/-- C4 witness event: a DM from frank. -/
def wMsg4 : DataMsg := ⟨"frank", "frank", "Frank", 2, none, some "teleworking", none⟩

/-- C5 counterexample db: carol is on TDY over days 0..2, has no leave
record and no response. -/
def cDB5 : DB := { emptyDB with tdy := [⟨"carol", 0, 2, "training"⟩] }

/-- C5 counterexample state. -/
def cSt5 : BotState := ⟨fun _ => none, fun _ => none, cDB5⟩

/-- C5 witness db: gina responded on day 1, hal is on leave on day 1,
ivan did neither. -/
def wDB5 : DB :=
  { emptyDB with
    responses := [⟨"gina", "Gina", 1, "In at Normal Time", none⟩],
    leaveRows := [⟨"hal", "Hal", 0, 2⟩] }

/-- C5 witness state. -/
def wSt5 : BotState := ⟨fun _ => none, fun _ => none, wDB5⟩

/-- C6 counterexample: a config with an IANA timezone set. -/
def cDB6a : DB :=
  { emptyDB with config := [("checkin_time", "06:30"), ("timezone", "America/New_York")] }

/-- C6 counterexample: the same job times with timezone UTC. -/
def cDB6b : DB :=
  { emptyDB with config := [("checkin_time", "06:30"), ("timezone", "UTC")] }

/-- C6 witness: job times plus an unrecognized timezone value. -/
def wDB6a : DB :=
  { emptyDB with config := [("reminder_time", "08:15"), ("timezone", "Not/AZone")] }

/-- C6 witness: the same job times with no timezone key at all. -/
def wDB6b : DB := { emptyDB with config := [("reminder_time", "08:15")] }

/-- C8 witness state (empty maps, empty db). -/
def wSt8 : BotState := ⟨fun _ => none, fun _ => none, emptyDB⟩

/-- C9 witness state: one registered prompt (timestamp 40, day 8). -/
def wSt9 : BotState :=
  ⟨fun t => if t = 40 then some 8 else none, fun _ => none, emptyDB⟩

/-- C9 witness event: a reaction with an unrecognized symbol. -/
def wMsg9 : DataMsg := ⟨"jo", "jo", "Jo", 5, some ⟨"Z", false, 40⟩, none, none⟩

/-- C10 counterexample state: erin has a pending follow-up; no prompts. -/
def cSt10 : BotState :=
  ⟨fun _ => none, fun u => if u = "erin" then some ⟨77, "Other", 6⟩ else none, emptyDB⟩

/-- C10 counterexample event: a reaction with `isRemove = true` arriving as
a DM (context destination = erin, not the group). -/
def cMsg10 : DataMsg :=
  ⟨"erin", "erin", "Erin", 12, some ⟨"\u00E2\u0153\u2026", true, 999⟩, none, none⟩

/-- C10 witness state: one registered prompt (timestamp 60, day 3) and a
pending follow-up for kim. -/
def wSt10 : BotState :=
  ⟨fun t => if t = 60 then some 3 else none,
   fun u => if u = "kim" then some ⟨88, "In Late", 3⟩ else none, emptyDB⟩

/-- C10 witness event: a group-chat reaction-removal on the registered
prompt. -/
def wMsg10 : DataMsg :=
  ⟨"kim", "kim", "Kim", 13, some ⟨"\u00E2\u0153\u2026", true, 60⟩, none, none⟩

/-! ## Theorems -/

/-- Appending a response row makes it the one the summary's dict lookup
returns for its key: the dict comprehension is built in row order, so the
last row for a `(user, date)` key wins. -/
theorem responsesDict_append_last (rows : List ResponseRow) (row : ResponseRow) :
    responsesDict (rows ++ [row]) row.response_date row.user_id =
      some (row.response_text, row.details) := by
  simp [responsesDict, List.filter_append, List.foldl_append]

/-- C1: the effective status reported by the summary for `(u, d)` follows
the strict precedence TDY ≻ Leave ≻ explicit Response ≻ Not Checked In:
any covering TDY record makes the result that record's description (even
when leave records and responses for `(u, d)` also exist in the store);
with no covering TDY, a covering leave record gives On Leave; with neither,
an explicit response row gives that response's status and detail; otherwise
Not Checked In. -/
theorem resolver_precedence (db : DB) (u : String) (d : Date) :
    ((∃ r ∈ db.tdy, r.user_id = u ∧ r.start_date ≤ d ∧ d ≤ r.end_date) →
      ∃ r ∈ db.tdy, r.user_id = u ∧ r.start_date ≤ d ∧ d ≤ r.end_date ∧
        status_line db d u = .tdy r.description) ∧
    (get_user_tdy_status db u d = none → is_user_on_leave db u d = true →
      status_line db d u = .onLeave) ∧
    (get_user_tdy_status db u d = none → is_user_on_leave db u d = false →
      ∀ t det, responsesDict db.responses d u = some (t, det) →
        status_line db d u = .response t det) ∧
    (get_user_tdy_status db u d = none → is_user_on_leave db u d = false →
      responsesDict db.responses d u = none → status_line db d u = .notCheckedIn) := by
  refine ⟨?_, ?_, ?_, ?_⟩
  · rintro ⟨r, hr, hu, ha, hb⟩
    rcases ho : get_user_tdy_status db u d with _ | desc
    · exfalso
      rw [get_user_tdy_status, Option.map_eq_none'] at ho
      have := List.find?_eq_none.mp ho r
        (List.mem_filter.mpr ⟨hr, by simp [hu]⟩)
      simp [ha, hb] at this
    · rw [get_user_tdy_status, Option.map_eq_some'] at ho
      obtain ⟨r', hfind, hdesc⟩ := ho
      have hmem := List.mem_filter.mp (List.mem_of_find?_eq_some hfind)
      have hpred := List.find?_some hfind
      simp only [Bool.and_eq_true, decide_eq_true_eq] at hpred
      refine ⟨r', hmem.1, by simpa using hmem.2, hpred.1, hpred.2, ?_⟩
      have hg : get_user_tdy_status db u d = some r'.description := by
        rw [get_user_tdy_status, hfind]; rfl
      simp [status_line, hg]
  · intro h1 h2
    simp [status_line, h1, h2]
  · intro h1 h2 t det h3
    simp [status_line, h1, h2, h3]
  · intro h1 h2 h3
    simp [status_line, h1, h2, h3]

/-- C1 witness: in `wDB1`, where user `u1` simultaneously has a covering
TDY record, a covering leave record and an explicit response for day 2, the
resolver reports the TDY record's description. -/
theorem resolver_precedence_witness :
    ∃ r ∈ wDB1.tdy, r.user_id = "u1" ∧ r.start_date ≤ 2 ∧ 2 ≤ r.end_date ∧
      status_line wDB1 2 "u1" = .tdy r.description :=
  (resolver_precedence wDB1 "u1" 2).1
    ⟨⟨"u1", 1, 3, "offsite training"⟩, by simp [wDB1, emptyDB], rfl, by decide, by decide⟩

/-- C2 counterexample: two successive check-mark reactions from alice on
the registered prompt for day 4 leave TWO response rows for the key
`(alice, 4)` in the store, not one — `react_callback` issues a plain
`INSERT` and the `responses` table has no unique constraint on
`(user_id, response_date)`, so the later write does not replace the
earlier one. -/
theorem response_rows_duplicate_counterexample :
    ((react_callback (react_callback cSt2 cMsg2 cReact2 0).1 cMsg2 cReact2 0).1.db.responses.filter
        (fun r => r.user_id = "alice" && r.response_date = 4)).length = 2 ∧
    ¬ ((react_callback (react_callback cSt2 cMsg2 cReact2 0).1 cMsg2 cReact2 0).1.db.responses.filter
        (fun r => r.user_id = "alice" && r.response_date = 4)).length = 1 := by
  constructor <;> decide

/-- C2 amended: response writes append rows, so the store may hold several
rows per `(user, date)`; upsert semantics hold only at read time — the
summary's dict is built in row order, so after any later write for the key
`(u, d)` (via no-detail reaction routing or via follow-up finalization) the
EFFECTIVE response for `(u, d)` is exactly that latest write's status and
detail. -/
theorem response_write_latest_wins (st : BotState) (m : DataMsg) (r : Reaction)
    (ackTs : Nat) :
    (∀ ds si, st.daily_message_ts r.targetSentTimestamp = some ds →
      statusMapGet r.emoji = some si → si.prompt = none →
      responsesDict (react_callback st m r ackTs).1.db.responses ds m.sender_uuid =
        some (si.text, none)) ∧
    (∀ info, st.update_status_ts m.sender_uuid = some info →
      responsesDict (update_status_callback st m).1.db.responses
          info.response_date m.sender_uuid = some (info.status, m.message)) := by
  constructor
  · intro ds si h1 h2 h3
    simp only [react_callback, h1, h2, h3]
    exact responsesDict_append_last st.db.responses
      ⟨m.sender_uuid, m.sender_name, ds, si.text, none⟩
  · intro info h1
    simp only [update_status_callback, h1]
    exact responsesDict_append_last st.db.responses
      ⟨m.sender_uuid, m.sender_name, info.response_date, info.status, m.message⟩

/-- C2 witness: bob already has an Out Sick row for day 9; after his
work-from-home reaction the effective response for `(bob, 9)` is the new
status. -/
theorem response_write_latest_wins_witness :
    responsesDict (react_callback wSt2 wMsg2 ⟨"ðŸ ", false, 50⟩ 0).1.db.responses
        9 "bob" = some ("Working from Home", none) :=
  (response_write_latest_wins wSt2 wMsg2 ⟨"ðŸ ", false, 50⟩ 0).1 9
    ⟨"Working from Home", none, "house"⟩ (by decide) (by decide) rfl

/-- C3: `update_status_ts` holds at most one pending follow-up per user —
a second detail-required reaction before any reply overwrites the first
pending entry, leaving the map holding exactly the second reaction's
status and date at the user's key (and leaving every other key and the
whole database untouched); after the overwrite, a reply from the user
finalizes the response with the SECOND entry's status and date (with the
reply text as detail) and removes the pending entry — nothing can finalize
under the first entry any more. -/
theorem pending_followup_overwrite (st : BotState) (m1 m2 m3 : DataMsg)
    (r1 r2 : Reaction) (a1 a2 : Nat) (d1 d2 : Date) (s1 s2 : StatusInfo)
    (p1 p2 : String)
    (hu1 : m1.sender_uuid = m2.sender_uuid) (hu3 : m3.sender_uuid = m2.sender_uuid)
    (h1 : st.daily_message_ts r1.targetSentTimestamp = some d1)
    (h2 : st.daily_message_ts r2.targetSentTimestamp = some d2)
    (hm1 : statusMapGet r1.emoji = some s1) (hm2 : statusMapGet r2.emoji = some s2)
    (hp1 : s1.prompt = some p1) (hp2 : s2.prompt = some p2) :
    ((react_callback (react_callback st m1 r1 a1).1 m2 r2 a2).1.update_status_ts =
      fun v => if v = m2.sender_uuid then some ⟨a2, s2.text, d2⟩
               else st.update_status_ts v) ∧
    ((react_callback (react_callback st m1 r1 a1).1 m2 r2 a2).1.db = st.db) ∧
    ((update_status_callback
        (react_callback (react_callback st m1 r1 a1).1 m2 r2 a2).1 m3).1.update_status_ts
      m2.sender_uuid = none) ∧
    (responsesDict (update_status_callback
        (react_callback (react_callback st m1 r1 a1).1 m2 r2 a2).1 m3).1.db.responses
      d2 m2.sender_uuid = some (s2.text, m3.message)) := by
  have e1 : (react_callback st m1 r1 a1).1 =
      { st with update_status_ts := fun u =>
          if u = m1.sender_uuid then some ⟨a1, s1.text, d1⟩
          else st.update_status_ts u } := by
    simp only [react_callback, h1, hm1, hp1]
  have e2 : (react_callback (react_callback st m1 r1 a1).1 m2 r2 a2).1 =
      { st with update_status_ts := fun u =>
          if u = m2.sender_uuid then some ⟨a2, s2.text, d2⟩
          else st.update_status_ts u } := by
    rw [e1]
    simp only [react_callback, h2, hm2, hp2]
    congr 1
    funext u
    by_cases hv : u = m2.sender_uuid
    · simp [hv]
    · have hv1 : ¬ u = m1.sender_uuid := by rw [hu1]; exact hv
      simp [hv, hv1]
  have e3 : (update_status_callback
      (react_callback (react_callback st m1 r1 a1).1 m2 r2 a2).1 m3).1 =
      { st with
          update_status_ts := fun u =>
            if u = m3.sender_uuid then none
            else if u = m2.sender_uuid then some ⟨a2, s2.text, d2⟩
                 else st.update_status_ts u,
          db := { st.db with responses := st.db.responses ++
            [⟨m3.sender_uuid, m3.sender_name, d2, s2.text, m3.message⟩] } } := by
    rw [e2]
    have hlook : (if m3.sender_uuid = m2.sender_uuid
        then some (⟨a2, s2.text, d2⟩ : PendingInfo)
        else st.update_status_ts m3.sender_uuid) = some ⟨a2, s2.text, d2⟩ := by
      simp [hu3]
    simp only [update_status_callback, hlook]
  refine ⟨by rw [e2], by rw [e2], ?_, ?_⟩
  · rw [e3]
    simp [hu3]
  · rw [e3]
    show responsesDict
        (st.db.responses ++ [⟨m3.sender_uuid, m3.sender_name, d2, s2.text, m3.message⟩])
        d2 m2.sender_uuid = some (s2.text, m3.message)
    rw [← hu3]
    exact responsesDict_append_last st.db.responses
      ⟨m3.sender_uuid, m3.sender_name, d2, s2.text, m3.message⟩

/-- C3 witness: dana reacts In Late (stopwatch) then Appointment (calendar)
before replying; her reply "0930 dentist" finalizes an Appointment response
for day 11 — the second reaction's status, not the first's. -/
theorem pending_followup_overwrite_witness :
    responsesDict (update_status_callback
        (react_callback (react_callback wSt3 wM3a ⟨"\u00E2\u00B1\u00EF\u00B8", false, 70⟩ 201).1
          wM3b ⟨"\u00F0\u0178\u2014\u201C\u00EF\u00B8", false, 70⟩ 202).1 wM3c).1.db.responses
      11 "dana" = some ("Appointment", some "0930 dentist") :=
  (pending_followup_overwrite wSt3 wM3a wM3b wM3c
    ⟨"\u00E2\u00B1\u00EF\u00B8", false, 70⟩ ⟨"\u00F0\u0178\u2014\u201C\u00EF\u00B8", false, 70⟩
    201 202 11 11
    ⟨"In Late", some "What time do you expect to be in?", "stopwatch"⟩
    ⟨"Appointment", some "What time do you expect to be in?", "calendar"⟩
    "What time do you expect to be in?" "What time do you expect to be in?"
    rfl rfl (by decide) (by decide) (by decide) (by decide) rfl rfl).2.2.2

/-- C4 counterexample: alice has a pending follow-up (correlation token
500); her DM carries NO reply-reference (`quote = none`) and unrelated
text, yet `message_callback` consumes it as the follow-up — the pending
entry is cleared and a response row for day 4 with status In Late and the
unrelated text as detail is written.  The code never compares any token. -/
theorem uncorrelated_reply_consumed_counterexample :
    cMsg4.quote = none ∧
    (message_callback "group" cSt4 "alice" cMsg4 0).1.update_status_ts "alice" = none ∧
    responsesDict (message_callback "group" cSt4 "alice" cMsg4 0).1.db.responses
      4 "alice" = some ("In Late", some "totally unrelated chatter") := by
  refine ⟨rfl, by decide, by decide⟩

/-- C4 amended: for a user with a pending follow-up, EVERY incoming DM
(any `context1 ≠ chatId` event from that sender, whatever its
reply-reference `quote` and text) is consumed as the follow-up: the pending
entry is cleared and the response for the entry's stored status and date is
finalized with the message text as detail; no correlation token is
checked. -/
theorem dm_reply_always_consumed (chatId : String) (st : BotState)
    (ctx1 : String) (m : DataMsg) (ackTs : Nat) (info : PendingInfo)
    (hne : ctx1 ≠ chatId) (hp : st.update_status_ts m.sender_uuid = some info) :
    (message_callback chatId st ctx1 m ackTs).1.update_status_ts m.sender_uuid = none ∧
    responsesDict (message_callback chatId st ctx1 m ackTs).1.db.responses
      info.response_date m.sender_uuid = some (info.status, m.message) := by
  have hroute : (message_callback chatId st ctx1 m ackTs).1.update_status_ts =
        (update_status_callback st m).1.update_status_ts ∧
      (message_callback chatId st ctx1 m ackTs).1.db.responses =
        (update_status_callback st m).1.db.responses := by
    simp only [message_callback, if_neg hne, hp, Option.isSome_some, if_pos]
    cases hmm : m.message with
    | none => exact ⟨rfl, rfl⟩
    | some txt =>
      by_cases he : txt = ""
      · simp [he]
      · simp [he]
  rw [hroute.1, hroute.2]
  simp only [update_status_callback, hp]
  constructor
  · simp
  · exact responsesDict_append_last st.db.responses
      ⟨m.sender_uuid, m.sender_name, info.response_date, info.status, m.message⟩

/-- C4 amended witness: frank's DM "teleworking" (no reply-reference)
finalizes his pending Other response for day 15 and clears the entry. -/
theorem dm_reply_always_consumed_witness :
    (message_callback "group" wSt4 "frank" wMsg4 0).1.update_status_ts "frank" = none ∧
    responsesDict (message_callback "group" wSt4 "frank" wMsg4 0).1.db.responses
      15 "frank" = some ("Other", some "teleworking") :=
  dm_reply_always_consumed "group" wSt4 "frank" wMsg4 0 ⟨321, "Other", 15⟩
    (by decide) (by decide)

/-- C5 counterexample: carol is covered by a TDY absence record on day 1
(a Tuesday workday), has no response and no leave — yet the reminder sweep
sends her a reminder DM: the code only excludes responders, LEAVE-covered
users and the bot id, never consulting the `tdy` table. -/
theorem tdy_user_gets_reminder_counterexample :
    get_user_tdy_status cDB5 "carol" 1 = some "training" ∧
    is_workday cDB5 1 = true ∧
    (post_reminder_callback "bot" cSt5 1 ["carol"]).2 =
      [.dm "carol" reminderText] := by
  refine ⟨by decide, by decide, by decide⟩

/-- C5 amended: on a workday the reminder sweep DMs exactly those group
members with no response recorded for the day, no LEAVE record covering
the day, and who are not the bot id — TemporaryDuty records are not
consulted, so TDY-covered members without leave still receive reminders. -/
theorem reminder_recipients_characterization (musterbotId : String)
    (st : BotState) (d : Date) (us : List String) (uid : String)
    (hw : is_workday st.db d = true) :
    Outbound.dm uid reminderText ∈ (post_reminder_callback musterbotId st d us).2 ↔
      uid ∈ us ∧ uid ∉ responded_users st.db d ∧
        is_user_on_leave st.db uid d = false ∧ uid ≠ musterbotId := by
  simp only [post_reminder_callback, hw, Bool.not_true, Bool.false_eq_true, if_false,
    List.mem_map, List.mem_filter]
  constructor
  · rintro ⟨v, ⟨hv, hcond⟩, heq⟩
    cases heq
    simp only [Bool.and_eq_true, Bool.not_eq_true', List.elem_eq_mem,
      decide_eq_false_iff_not, decide_eq_true_eq] at hcond
    exact ⟨hv, hcond.1.1, hcond.1.2, hcond.2⟩
  · rintro ⟨hv, hnr, hnl, hnb⟩
    refine ⟨uid, ⟨hv, ?_⟩, rfl⟩
    simp only [Bool.and_eq_true, Bool.not_eq_true', List.elem_eq_mem,
      decide_eq_false_iff_not, decide_eq_true_eq]
    exact ⟨⟨hnr, hnl⟩, hnb⟩

/-- C5 amended witness: on workday 1, gina (responded) and hal (on leave)
get no reminder, while ivan (neither) does. -/
theorem reminder_recipients_characterization_witness :
    (Outbound.dm "ivan" reminderText ∈ (post_reminder_callback "bot" wSt5 1 ["gina", "hal", "ivan"]).2) ∧
    ¬ (Outbound.dm "gina" reminderText ∈ (post_reminder_callback "bot" wSt5 1 ["gina", "hal", "ivan"]).2) ∧
    ¬ (Outbound.dm "hal" reminderText ∈ (post_reminder_callback "bot" wSt5 1 ["gina", "hal", "ivan"]).2) := by
  refine ⟨?_, ?_, ?_⟩
  · exact (reminder_recipients_characterization "bot" wSt5 1 ["gina", "hal", "ivan"]
      "ivan" (by decide)).mpr ⟨by decide, by decide, by decide, by decide⟩
  · intro h
    have := (reminder_recipients_characterization "bot" wSt5 1 ["gina", "hal", "ivan"]
      "gina" (by decide)).mp h
    exact this.2.1 (by decide)
  · intro h
    have := (reminder_recipients_characterization "bot" wSt5 1 ["gina", "hal", "ivan"]
      "hal" (by decide)).mp h
    exact absurd this.2.2.1 (by decide)

/-- C6 counterexample: two configurations that differ only in their
`timezone` value (America/New_York vs UTC) produce IDENTICAL armed
triggers and identical log lines — the scheduler never reads any time
zone identifier, computes no instants in a configured zone, and emits no
UTC-fallback warning. -/
theorem timezone_ignored_counterexample :
    configGet cDB6a "timezone" = some "America/New_York" ∧
    configGet cDB6b "timezone" = some "UTC" ∧
    generate_cron_callbacks cDB6a 0 [] = generate_cron_callbacks cDB6b 0 [] := by
  refine ⟨by decide, by decide, by decide⟩

/-- C6 amended: schedule recomputation reads ONLY the three job-time keys
(`checkin_time`, `reminder_time`, `summary_time`, with their seeded
defaults) from the configuration and computes next firing instants
directly against the process reference clock; any `timezone`
configuration, recognized or not, is ignored and no fallback occurs —
two databases agreeing on the three job-time keys yield identical
triggers and logs. -/
theorem generate_cron_reads_only_job_times (db db' : DB) (ref : Instant)
    (crons crons' : List Trigger)
    (h1 : configGet db "checkin_time" = configGet db' "checkin_time")
    (h2 : configGet db "reminder_time" = configGet db' "reminder_time")
    (h3 : configGet db "summary_time" = configGet db' "summary_time") :
    generate_cron_callbacks db ref crons = generate_cron_callbacks db' ref crons' := by
  simp only [generate_cron_callbacks, cron_jobs, h1, h2, h3]

/-- C6 amended witness: a config carrying an unrecognized timezone value
and the same config with no timezone key at all schedule identically. -/
theorem generate_cron_reads_only_job_times_witness :
    generate_cron_callbacks wDB6a 5 [⟨"0 0 * * 1-5", 0, .checkin⟩] =
      generate_cron_callbacks wDB6b 5 [] :=
  generate_cron_reads_only_job_times wDB6a wDB6b 5 _ _ (by decide) (by decide) (by decide)

/-- C7: schedule recomputation first cancels every previously armed
trigger (the result is independent of the prior armed set, so no trigger
armed under the old schedule survives), and recomputing again with an
unchanged configuration and reference instant reproduces the same
triggers with the same next-firing instants (idempotence). -/
theorem generate_cron_idempotent_and_clears (db : DB) (ref : Instant)
    (old : List Trigger) :
    generate_cron_callbacks db ref (generate_cron_callbacks db ref old).1 =
      generate_cron_callbacks db ref old ∧
    generate_cron_callbacks db ref old = generate_cron_callbacks db ref [] :=
  ⟨rfl, rfl⟩

/-- C8: on any non-workday (Saturday, Sunday, or a date in the holidays
table), each of the three scheduled operations — daily prompt, reminder
sweep, summary — is a no-op when invoked on it: the state (prompt map,
pending map, database) is returned unchanged and no message is sent;
each operation checks the guard itself. -/
theorem nonworkday_callbacks_noop (chatId targetChannel musterbotId : String)
    (userName : String → String) (members : List (String × String))
    (st : BotState) (d : Date) (ackTs : Nat) (us : List String)
    (h : 5 ≤ weekday d ∨ ∃ p ∈ st.db.holidays, p.1 = d) :
    post_daily_checkin_callback chatId st d ackTs = (st, []) ∧
    post_reminder_callback musterbotId st d us = (st, []) ∧
    post_daily_summary_callback chatId targetChannel musterbotId userName members st d
      = (st, []) := by
  have hw : is_workday st.db d = false := by
    rcases h with h | ⟨p, hp, he⟩
    · simp [is_workday, h]
    · by_cases h5 : weekday d ≥ 5
      · simp [is_workday, h5]
      · simp only [is_workday, if_neg h5, Bool.not_eq_false']
        exact List.any_eq_true.mpr ⟨p, hp, by simp [he]⟩
  refine ⟨?_, ?_, ?_⟩
  · simp [post_daily_checkin_callback, hw]
  · simp [post_reminder_callback, hw]
  · simp [post_daily_summary_callback, hw]

/-- C8 witness: day 5 (a Saturday) — all three callbacks return the state
unchanged and send nothing. -/
theorem nonworkday_callbacks_noop_witness :
    post_daily_checkin_callback "group" wSt8 5 0 = (wSt8, []) ∧
    post_reminder_callback "bot" wSt8 5 ["u"] = (wSt8, []) ∧
    post_daily_summary_callback "group" "chan" "bot" (fun _ => "") [] wSt8 5
      = (wSt8, []) :=
  nonworkday_callbacks_noop "group" "chan" "bot" (fun _ => "") [] wSt8 5 0 ["u"]
    (Or.inl (by decide))

/-- C9: a reaction to a registered check-in prompt whose symbol is not in
`STATUS_MAP` only sends the reacting user an explanatory DM: the returned
state is exactly the input state — no response row is written and the
pending follow-up map is untouched. -/
theorem unknown_emoji_no_mutation (st : BotState) (m : DataMsg) (r : Reaction)
    (ackTs : Nat) (ds : Date)
    (hreg : st.daily_message_ts r.targetSentTimestamp = some ds)
    (hunk : statusMapGet r.emoji = none) :
    react_callback st m r ackTs =
      (st, [.dm m.sender_uuid (unknownEmojiText r.emoji)], true) := by
  simp [react_callback, hreg, hunk]

/-- C9 witness: jo reacts with the unrecognized symbol Z to the registered
prompt; only the explanatory DM results, the state is unchanged. -/
theorem unknown_emoji_no_mutation_witness :
    react_callback wSt9 wMsg9 ⟨"Z", false, 40⟩ 0 =
      (wSt9, [.dm "jo" (unknownEmojiText "Z")], true) :=
  unknown_emoji_no_mutation wSt9 wMsg9 ⟨"Z", false, 40⟩ 0 8 (by decide) (by decide)

/-- C10 counterexample: a reaction event with `isRemove = true` arriving
as a DM from a user with a pending follow-up is NOT ignored — erin's
pending entry is consumed and a response row (Other, day 6, no detail) is
written.  The isRemove filter only guards the group-chat branch. -/
theorem dm_reaction_consumed_counterexample :
    (cMsg10.reaction.map (fun r => r.isRemove)) = some true ∧
    (message_callback "group" cSt10 "erin" cMsg10 0).1.update_status_ts "erin" = none ∧
    responsesDict (message_callback "group" cSt10 "erin" cMsg10 0).1.db.responses
      6 "erin" = some ("Other", none) := by
  refine ⟨rfl, by decide, by decide⟩

/-- C10 amended: every GROUP-CHAT reaction event with `isRemove = true`,
and every group-chat reaction targeting a message that is not a registered
check-in prompt, is ignored by the correlation core: no response row is
written, no pending follow-up is opened or changed, both correlation maps
are left unchanged, and nothing is sent.  (A reaction delivered as a DM
from a user with a pending follow-up is instead consumed as that
follow-up's reply — see the counterexample.) -/
theorem group_reaction_ignored (chatId : String) (st : BotState) (m : DataMsg)
    (ackTs : Nat) (r : Reaction)
    (hr : m.reaction = some r)
    (h : r.isRemove = true ∨ st.daily_message_ts r.targetSentTimestamp = none) :
    (message_callback chatId st chatId m ackTs).1.daily_message_ts = st.daily_message_ts ∧
    (message_callback chatId st chatId m ackTs).1.update_status_ts = st.update_status_ts ∧
    (message_callback chatId st chatId m ackTs).1.db.responses = st.db.responses ∧
    (message_callback chatId st chatId m ackTs).2.1 = [] := by
  have hcond : (!r.isRemove && (st.daily_message_ts r.targetSentTimestamp).isSome) = false := by
    rcases h with h | h <;> simp [h]
  simp only [message_callback, if_pos rfl, hr, hcond, Bool.false_eq_true, if_false]
  cases hmm : m.message with
  | none => exact ⟨rfl, rfl, rfl, rfl⟩
  | some txt =>
    by_cases he : txt = ""
    · simp [he]
    · simp [he]

/-- C10 amended witness: kim removes her check-mark reaction on the
registered group prompt while she has a pending follow-up; nothing
changes and nothing is sent. -/
theorem group_reaction_ignored_witness :
    (message_callback "group" wSt10 "group" wMsg10 0).1.daily_message_ts
        = wSt10.daily_message_ts ∧
    (message_callback "group" wSt10 "group" wMsg10 0).1.update_status_ts
        = wSt10.update_status_ts ∧
    (message_callback "group" wSt10 "group" wMsg10 0).1.db.responses
        = wSt10.db.responses ∧
    (message_callback "group" wSt10 "group" wMsg10 0).2.1 = [] :=
  group_reaction_ignored "group" wSt10 wMsg10 0
    ⟨"\u00E2\u0153\u2026", true, 60⟩ rfl (Or.inl rfl)

end MusterBot
